import Mathlib

/-!
Verification of the `commit-queue-sandbox` test-artifact generators.

The repository consists of five standalone Python scripts that synthesize fake
test-result artifacts: Go-test console logs (`generate_gotest_files.py`),
a JSON results bundle (`generate_results_file.py`), a results file derived
from a recommended-tests input (`generate_test_results.py`), OpenTelemetry
trace files (`generate_trace_files.py`), and xUnit XML files
(`generate_xunit_files.py`).

Embedding conventions:
  * Python strings are embedded as `List Char` (`Str`).
  * Python floats are embedded as rationals (`ℚ`); the `%.3f` format
    specifier is embedded as rounding to the nearest thousandth
    (`milli` / `fmt3`).  Python rounds the underlying binary double to
    nearest (ties to even); on the non-tie inputs used here the two agree.
  * Every call to the `random` module is an input: each generator takes the
    stream of drawn values as an explicit argument (`random.random()` draws
    become `ℚ` inputs, `random.randint` draws become `ℕ`/`ℤ` inputs,
    `random.choices` of hex digits becomes a drawn `Str`,
    `random.choice` from a list becomes a drawn index).
  * Filesystem writes are embedded as an explicit effect trace
    (`FsEffect`): `open(f, "w"); f.write(c)` is `.write f c`
    and `os.makedirs(d, exist_ok=True)` is `.mkdir d`.
  * `os.path.join dir name` with the non-empty, slash-free directory names
    used by the scripts is `dir ++ "/" ++ name`.
  * `json.dumps` with default separators is embedded structurally
    (`Json.dumps`); none of the generated strings need escaping.
-/

namespace CQ

/-- Python strings are embedded as lists of characters. -/
abbrev Str := List Char

/-- The left curly-brace character. -/
def lbrace : Char := Char.ofNat 123

/-- The right curly-brace character. -/
def rbrace : Char := Char.ofNat 125

/-- Decimal rendering of a natural number, as in Python `str(n)`/`f"{n}"`. -/
def natStr (n : ℕ) : Str := (Nat.repr n).toList

/-- Decimal rendering of an integer, as in Python `str(n)`/`f"{n}"`. -/
def intStr (n : ℤ) : Str := (Int.repr n).toList

/-- Python `f"{n:0wd}"`: zero-pad the decimal form of `n` to width `w`. -/
def padZero (w : ℕ) (n : ℕ) : Str :=
  let s := natStr n
  List.replicate (w - s.length) '0' ++ s

/-- The value of a rational in thousandths, rounded to the nearest integer,
as produced by the `%.3f` / `{x:.3f}` format specifier. -/
def milli (q : ℚ) : ℤ := ⌊q * 1000 + 1 / 2⌋

/-- Python `f"{x:.3f}"`: fixed-point rendering with three decimal places. -/
def fmt3 (q : ℚ) : Str :=
  let m := milli q
  if m < 0 then
    '-' :: (natStr ((-m).toNat / 1000) ++ '.' :: padZero 3 ((-m).toNat % 1000))
  else
    natStr (m.toNat / 1000) ++ '.' :: padZero 3 (m.toNat % 1000)

/-- Helper for `pyTitle`: the Boolean records whether the previous character
was alphabetic. -/
def pyTitleGo : Bool → Str → Str
  | _, [] => []
  | prevAlpha, c :: cs =>
    (if c.isAlpha then (if prevAlpha then c.toLower else c.toUpper) else c) ::
      pyTitleGo c.isAlpha cs

/-- Python `str.title()`: the first letter of each alphabetic run is
upper-cased, the rest lower-cased. -/
def pyTitle (s : Str) : Str := pyTitleGo false s

/-- `os.path.join` for the directory arguments used in this repository
(non-empty, no trailing slash). -/
def pathJoin (d f : Str) : Str := d ++ '/' :: f

/-- Join a list of lines with newline characters, as in `"\n".join(lines)`. -/
def joinLines (ls : List Str) : Str := List.intercalate ['\n'] ls

/-- A single filesystem side effect performed by a script. -/
inductive FsEffect where
  | write (path content : Str)
  | mkdir (path : Str)
deriving DecidableEq

/-- Whether an effect is a directory creation. -/
def FsEffect.isMkdir : FsEffect → Bool
  | .mkdir _ => true
  | .write _ _ => false

/-- A filesystem state: the contents of each file path, if present. -/
abbrev FS := Str → Option Str

/-- Apply one effect to a filesystem state.  `open(p, "w")` truncates and
overwrites, so a `write` always succeeds; `mkdir` does not change any file. -/
def applyEffect (f : FS) : FsEffect → FS
  | .write p c => fun q => if q = p then some c else f q
  | .mkdir _ => f

/-- Apply a trace of effects in program order. -/
def applyEffects (es : List FsEffect) (f : FS) : FS := es.foldl applyEffect f

/-- The file paths written by a trace of effects, in order. -/
def writePaths (es : List FsEffect) : List Str :=
  es.filterMap fun e => match e with
    | .write p _ => some p
    | .mkdir _ => none

/-- JSON values, as produced by the Python `json` module on the data the
scripts build (strings, integers, floats, lists and dicts).  Floats are
embedded as rationals (constructor `rat`). -/
inductive Json where
  | str (s : Str)
  | num (n : ℤ)
  | rat (q : ℚ)
  | arr (xs : List Json)
  | obj (kvs : List (Str × Json))

/-- Rendering of a float value: the exact decimal expansion when the
rational has one (as Python `repr` prints for exactly representable
values such as halves), `num/den` otherwise.  No claim depends on these
digit strings; the binary-double digit expansion of `repr` is not
representable in a rational embedding. -/
def ratStr (q : ℚ) : Str :=
  match (List.range 21).find? (fun k => 10 ^ k % q.den == 0) with
  | some k =>
    let v : ℤ := q.num * ((10 ^ k : ℕ) / q.den)
    let a := v.natAbs
    (if v < 0 then ['-'] else []) ++ natStr (a / 10 ^ k) ++
      '.' :: (if k = 0 then "0".toList else padZero k (a % 10 ^ k))
  | none => intStr q.num ++ ('/' :: natStr q.den)

mutual

/-- `json.dumps` with the default separators `", "` and `": "` (no string in
this repository needs escaping). -/
def Json.dumps : Json → Str
  | .str s => '"' :: (s ++ ['"'])
  | .num n => intStr n
  | .rat q => ratStr q
  | .arr xs => '[' :: (Json.dumpsArr xs ++ [']'])
  | .obj kvs => lbrace :: (Json.dumpsObj kvs ++ [rbrace])

/-- Comma-separated rendering of the elements of a JSON array. -/
def Json.dumpsArr : List Json → Str
  | [] => []
  | [x] => Json.dumps x
  | x :: y :: xs => Json.dumps x ++ ',' :: ' ' :: Json.dumpsArr (y :: xs)

/-- Comma-separated rendering of the key/value pairs of a JSON object. -/
def Json.dumpsObj : List (Str × Json) → Str
  | [] => []
  | [(k, v)] => '"' :: (k ++ '"' :: ':' :: ' ' :: Json.dumps v)
  | (k, v) :: kv :: kvs =>
    ('"' :: (k ++ '"' :: ':' :: ' ' :: Json.dumps v)) ++
      ',' :: ' ' :: Json.dumpsObj (kv :: kvs)

end

mutual

/-- `json.dump(x, f, indent=n)`: Python's indented serialization (item
separator `","`, key separator `": "`, each item on its own line indented by
`n` spaces per nesting level). -/
def Json.dumpsInd (ind : ℕ) : ℕ → Json → Str
  | _, .str s => '"' :: (s ++ ['"'])
  | _, .num n => intStr n
  | _, .rat q => ratStr q
  | _, .arr [] => '[' :: [']']
  | lvl, .arr (x :: xs) =>
    '[' :: '\n' :: (Json.dumpsIndArr ind (lvl + 1) (x :: xs) ++
      '\n' :: (List.replicate (ind * lvl) ' ' ++ [']']))
  | _, .obj [] => lbrace :: [rbrace]
  | lvl, .obj (kv :: kvs) =>
    lbrace :: '\n' :: (Json.dumpsIndObj ind (lvl + 1) (kv :: kvs) ++
      '\n' :: (List.replicate (ind * lvl) ' ' ++ [rbrace]))

/-- Indented rendering of the elements of a JSON array, one per line. -/
def Json.dumpsIndArr (ind : ℕ) : ℕ → List Json → Str
  | _, [] => []
  | lvl, [x] => List.replicate (ind * lvl) ' ' ++ Json.dumpsInd ind lvl x
  | lvl, x :: y :: xs =>
    (List.replicate (ind * lvl) ' ' ++ Json.dumpsInd ind lvl x) ++
      ',' :: '\n' :: Json.dumpsIndArr ind lvl (y :: xs)

/-- Indented rendering of the key/value pairs of a JSON object. -/
def Json.dumpsIndObj (ind : ℕ) : ℕ → List (Str × Json) → Str
  | _, [] => []
  | lvl, [(k, v)] =>
    List.replicate (ind * lvl) ' ' ++
      ('"' :: (k ++ '"' :: ':' :: ' ' :: Json.dumpsInd ind lvl v))
  | lvl, (k, v) :: kv :: kvs =>
    (List.replicate (ind * lvl) ' ' ++
      ('"' :: (k ++ '"' :: ':' :: ' ' :: Json.dumpsInd ind lvl v))) ++
      ',' :: '\n' :: Json.dumpsIndObj ind lvl (kv :: kvs)

end

/-- Look up a key in a JSON object. -/
def Json.getKey : Json → Str → Option Json
  | .obj kvs, k => kvs.lookup k
  | _, _ => none

/-- The first element of a JSON array. -/
def Json.arrHead : Json → Option Json
  | .arr (x :: _) => some x
  | _ => none

/-- The list `resourceSpans[0].scopeSpans[0].spans` of a JSON value, if the
navigation succeeds. -/
def Json.spansOf (j : Json) : Option (List Json) := do
  let rs ← j.getKey "resourceSpans".toList
  let r0 ← rs.arrHead
  let ss ← r0.getKey "scopeSpans".toList
  let s0 ← ss.arrHead
  let sp ← s0.getKey "spans".toList
  match sp with
  | .arr xs => some xs
  | _ => none

/-! ### `generate_trace_files.py` -/

/-- The random draws consumed by one call of `generate_span`:
`generate_span_id()`, `random.randint(1000000, 100000000)`,
`random.randint(1, 5)` and the `random.choice` pick for `db.operation`. -/
structure SpanRand where
  spanId : Str
  durationNs : ℕ
  kindVal : ℕ
  opIdx : ℕ

/-- The candidate values of the `db.operation` attribute. -/
def opChoices : List Str := ["find", "insert", "update", "delete"].map String.toList

/-- `generate_span`: one span dictionary. -/
def generate_span (trace_id parent_span_id : Str) (span_num : ℕ) (start_time_ns : ℕ)
    (r : SpanRand) : Json :=
  .obj [
    ("traceId".toList, .str trace_id),
    ("spanId".toList, .str r.spanId),
    ("parentSpanId".toList, .str parent_span_id),
    ("name".toList, .str ("operation_".toList ++ padZero 4 span_num)),
    ("kind".toList, .num r.kindVal),
    ("startTimeUnixNano".toList, .str (natStr start_time_ns)),
    ("endTimeUnixNano".toList, .str (natStr (start_time_ns + r.durationNs))),
    ("attributes".toList, .arr [
      .obj [("key".toList, .str "db.system".toList),
            ("value".toList, .obj [("stringValue".toList, .str "mongodb".toList)])],
      .obj [("key".toList, .str "db.operation".toList),
            ("value".toList, .obj [("stringValue".toList,
              .str (opChoices.getD (r.opIdx % 4) []))])],
      .obj [("key".toList, .str "db.name".toList),
            ("value".toList, .obj [("stringValue".toList, .str "test_db".toList)])],
      .obj [("key".toList, .str "span.num".toList),
            ("value".toList, .obj [("intValue".toList, .str (natStr span_num))])]]),
    ("status".toList, .obj [])]

/-- The random draws consumed by one call of `generate_trace_data`:
the trace id, the per-span draws, the per-iteration `random.random()` draws
deciding child/sibling linkage, and the base timestamp `int(time.time()*1e9)`
(treated as an input since wall-clock time is external). -/
structure TraceRand where
  traceId : Str
  span : ℕ → SpanRand
  rChild : ℕ → ℚ
  rSib : ℕ → ℚ
  baseTimeNs : ℕ

/-- The span-building loop of `generate_trace_data`: iteration `i` appends
`generate_span(...)` and then updates `parent_span_id` according to the two
random draws.  The first argument is the number of remaining iterations. -/
def genSpansGo (tr : TraceRand) : ℕ → ℕ → Str → List Json
  | 0, _, _ => []
  | n + 1, i, parent =>
    generate_span tr.traceId parent i (tr.baseTimeNs + i * 1000000) (tr.span i) ::
      genSpansGo tr n (i + 1)
        (if tr.rChild i < 3 / 10 then (tr.span i).spanId
         else if tr.rSib i < 1 / 2 then []
         else parent)

/-- `generate_trace_data`: the complete trace-data object with `num_spans`
spans under `resourceSpans[0].scopeSpans[0].spans`. -/
def generate_trace_data (num_spans : ℕ) (tr : TraceRand) : Json :=
  .obj [
    ("resourceSpans".toList, .arr [
      .obj [
        ("resource".toList, .obj [
          ("attributes".toList, .arr [
            .obj [("key".toList, .str "service.name".toList),
                  ("value".toList, .obj [("stringValue".toList,
                    .str "test-service".toList)])],
            .obj [("key".toList, .str "service.version".toList),
                  ("value".toList, .obj [("stringValue".toList,
                    .str "1.0.0".toList)])],
            .obj [("key".toList, .str "host.name".toList),
                  ("value".toList, .obj [("stringValue".toList,
                    .str "test-host".toList)])]])]),
        ("scopeSpans".toList, .arr [
          .obj [
            ("scope".toList, .obj [("name".toList, .str "test-tracer".toList)]),
            ("spans".toList, .arr (genSpansGo tr num_spans 0 []))]])]])]

/-- The constant `spans_per_object = 275` fixed inside `generate_trace_file`. -/
def spans_per_object : ℕ := 275

/-- `num_trace_objects = max(1, spans_per_file // spans_per_object)`. -/
def num_trace_objects (spans_per_file : ℕ) : ℕ := max 1 (spans_per_file / spans_per_object)

/-- The observable result of one call of `generate_trace_file`. -/
structure TraceFile where
  lines : List Str
  filename : Str
  actualSpans : ℕ

/-- `generate_trace_file`: builds `num_trace_objects` JSON lines, each the
serialization of a fresh `generate_trace_data(spans_per_object)` object,
accumulates `actual_spans`, and writes `traces_{file_num:04d}.jsonl`. -/
def generate_trace_file (file_num spans_per_file : ℕ) (output_dir : Str)
    (tr : ℕ → TraceRand) : TraceFile where
  lines := (List.range (num_trace_objects spans_per_file)).map fun k =>
    Json.dumps (generate_trace_data spans_per_object (tr k))
  filename := pathJoin output_dir ("traces_".toList ++ padZero 4 file_num ++ ".jsonl".toList)
  actualSpans := (List.range (num_trace_objects spans_per_file)).foldl
    (fun acc _ => acc + spans_per_object) 0

/-- Filesystem effects of one call of `generate_trace_file`: a single write
of the newline-joined lines followed by a trailing newline. -/
def traceFileEffects (file_num spans_per_file : ℕ) (output_dir : Str)
    (tr : ℕ → TraceRand) : List FsEffect :=
  let f := generate_trace_file file_num spans_per_file output_dir tr
  [.write f.filename (joinLines f.lines ++ ['\n'])]

/-- The hard-coded output directory of `generate_trace_files.py`. -/
def traceOutputDir : Str := "../build/OTelTraces".toList

/-- Filesystem effects of `generate_trace_files.main`: one
`os.makedirs(output_dir, exist_ok=True)` followed by the per-file writes. -/
def traceMainEffects (num_files spans_per_file : ℕ) (tr : ℕ → ℕ → TraceRand) :
    List FsEffect :=
  .mkdir traceOutputDir ::
    ((List.range num_files).map fun k =>
      traceFileEffects k spans_per_file traceOutputDir (tr k)).flatten

/-- Length of the span-building loop: one span per iteration. -/
theorem genSpansGo_length (tr : TraceRand) :
    ∀ (n i : ℕ) (parent : Str), (genSpansGo tr n i parent).length = n := by
  intro n
  induction n with
  | zero => intro i parent; rfl
  | succ m ih => intro i parent; simp [genSpansGo, ih]

/-- Navigating `resourceSpans[0].scopeSpans[0].spans` in a generated trace-data
object yields exactly the spans built by the loop. -/
theorem spansOf_trace_data (num_spans : ℕ) (tr : TraceRand) :
    (generate_trace_data num_spans tr).spansOf = some (genSpansGo tr num_spans 0 []) := rfl

/-- Folding `acc + c` over a list starting from `acc` adds `c` per element. -/
theorem foldl_add_const (c : ℕ) : ∀ (l : List ℕ) (acc : ℕ),
    l.foldl (fun a _ => a + c) acc = acc + c * l.length := by
  intro l
  induction l with
  | nil => intro acc; simp
  | cons x xs ih => intro acc; simp [ih, Nat.mul_succ]; ring

/-- A fixed span-level random draw, used to instantiate witnesses. -/
def spanRand0 : SpanRand := ⟨[], 0, 0, 0⟩

/-- A fixed trace-level random draw, used to instantiate witnesses. -/
def traceRand0 : TraceRand := ⟨[], fun _ => spanRand0, fun _ => 0, fun _ => 0, 0⟩

/-- Claim C1: every line of a file written by `generate_trace_file` is the
serialization of a JSON value in which `resourceSpans[0].scopeSpans[0].spans`
is a list of length exactly `spans_per_object = 275`, for every
`spans_per_file` argument. -/
theorem trace_file_lines_json_spans (file_num spans_per_file : ℕ) (output_dir : Str)
    (tr : ℕ → TraceRand) (l : Str)
    (hl : l ∈ (generate_trace_file file_num spans_per_file output_dir tr).lines) :
    ∃ j : Json, l = j.dumps ∧ ∃ s, j.spansOf = some s ∧ s.length = 275 := by
  simp only [generate_trace_file, List.mem_map] at hl
  rcases hl with ⟨k, _, rfl⟩
  refine ⟨generate_trace_data spans_per_object (tr k), rfl, ?_⟩
  exact ⟨_, spansOf_trace_data _ _, genSpansGo_length _ _ _ _⟩

/-- Witness for C1 at a concrete input: `spans_per_file = 100`, constant
random draws, and the first (only) line of the file. -/
theorem trace_file_lines_json_spans_witness :
    (Json.dumps (generate_trace_data spans_per_object traceRand0) ∈
      (generate_trace_file 0 100 "out".toList fun _ => traceRand0).lines) ∧
    ∃ j : Json, Json.dumps (generate_trace_data spans_per_object traceRand0) = j.dumps ∧
      ∃ s, j.spansOf = some s ∧ s.length = 275 :=
  ⟨by simp [generate_trace_file, num_trace_objects, spans_per_object, List.range_succ],
   trace_file_lines_json_spans 0 100 "out".toList (fun _ => traceRand0) _
     (by simp [generate_trace_file, num_trace_objects, spans_per_object, List.range_succ])⟩

/-- Claim C10: `generate_trace_file` emits `max 1 (spans_per_file / 275)` JSON
lines, reports `275 * max 1 (spans_per_file / 275)` spans, always contains at
least 275 spans, and exceeds the request whenever `spans_per_file < 275`. -/
theorem trace_file_span_counts (file_num spans_per_file : ℕ) (output_dir : Str)
    (tr : ℕ → TraceRand) :
    (generate_trace_file file_num spans_per_file output_dir tr).lines.length =
      max 1 (spans_per_file / 275) ∧
    (generate_trace_file file_num spans_per_file output_dir tr).actualSpans =
      275 * max 1 (spans_per_file / 275) ∧
    275 ≤ (generate_trace_file file_num spans_per_file output_dir tr).actualSpans ∧
    (spans_per_file < 275 →
      spans_per_file < (generate_trace_file file_num spans_per_file output_dir tr).actualSpans) := by
  have hlen : (generate_trace_file file_num spans_per_file output_dir tr).lines.length =
      max 1 (spans_per_file / 275) := by
    simp [generate_trace_file, num_trace_objects, spans_per_object]
  have hact : (generate_trace_file file_num spans_per_file output_dir tr).actualSpans =
      275 * max 1 (spans_per_file / 275) := by
    simp [generate_trace_file, foldl_add_const, num_trace_objects, spans_per_object]
  have h275 : 275 ≤ 275 * max 1 (spans_per_file / 275) :=
    Nat.le_mul_of_pos_right 275 (lt_of_lt_of_le Nat.zero_lt_one (le_max_left _ _))
  refine ⟨hlen, hact, by rw [hact]; exact h275, fun hlt => ?_⟩
  rw [hact]
  exact lt_of_lt_of_le hlt h275

/-- Witness for C10 at a concrete input: `spans_per_file = 100 < 275`, so the
file reports more spans than requested. -/
theorem trace_file_span_counts_witness :
    100 < 275 ∧
    100 < (generate_trace_file 0 100 "out".toList fun _ => traceRand0).actualSpans :=
  ⟨by norm_num,
   (trace_file_span_counts 0 100 "out".toList fun _ => traceRand0).2.2.2 (by norm_num)⟩

/-! ### Helper lemmas for line-prefix tests -/

/-- If `P` is a prefix of `C`, it is a prefix of `C ++ t`. -/
theorem isPrefixOf_append_pos (P C t : Str) (h : P.isPrefixOf C = true) :
    P.isPrefixOf (C ++ t) = true := by
  rw [ List.isPrefixOf_iff_prefix] at h ⊢
  exact h.trans (List.prefix_append C t)

/-- If `P` and `C` already disagree within their first `j` characters, then
`P` is not a prefix of `C ++ t` for any tail `t`. -/
theorem isPrefixOf_append_neg (P C t : Str) (j : ℕ) (hP : j ≤ P.length)
    (hC : j ≤ C.length) (hne : P.take j ≠ C.take j) :
    P.isPrefixOf (C ++ t) = false := by
  cases hb : P.isPrefixOf (C ++ t) with
  | false => rfl
  | true =>
    rw [ List.isPrefixOf_iff_prefix] at hb
    rcases hb with ⟨r, hr⟩
    refine absurd ?_ hne
    have h2 := congrArg (List.take j) hr
    rwa [ List.take_append_of_le_length hP, List.take_append_of_le_length hC] at h2

/-! ### `generate_gotest_files.py` -/

/-- The random draws consumed per test by `generate_suite_file` /
`generate_test_output`: the `random.random()` failure draw, the
`random.randint(2, 8)` log-line count, the two `random.randint(1, 100)`
expected/actual values, and the `random.uniform(0.001, 0.5)` duration. -/
structure GoTestRand where
  rFail : ℚ
  numLog : ℕ
  expectedVal : ℤ
  actualVal : ℤ
  dur : ℚ

/-- The test name `f"Test{module_name.title()}_Case{test_num:04d}"`. -/
def goTestName (module_name : Str) (test_num : ℕ) : Str :=
  "Test".toList ++ (pyTitle module_name ++ ("_Case".toList ++ padZero 4 test_num))

/-- One log line `f"    {test_name}: log line {i+1}: processing step {i+1}"`. -/
def goLogLine (name : Str) (i : ℕ) : Str :=
  "    ".toList ++ (name ++ (": log line ".toList ++ (natStr (i + 1) ++
    (": processing step ".toList ++ natStr (i + 1)))))

/-- `generate_test_output`: the console lines for one test together with its
`"PASS"`/`"FAIL"` status string.  The source returns the lines joined by
newlines; joining is deferred to the file assembler, which newline-joins the
concatenation of all blocks (equal to joining the per-block joins). -/
def generate_test_output (test_num : ℕ) (module_name : Str) (should_fail : Bool)
    (r : GoTestRand) : List Str × Str :=
  let name := goTestName module_name test_num
  let status : Str := if should_fail then "FAIL".toList else "PASS".toList
  let failLines : List Str :=
    if should_fail then
      ["    ".toList ++ (name ++ ": assertion failed".toList),
       "        Expected: ".toList ++ intStr r.expectedVal,
       "        Actual: ".toList ++ intStr r.actualVal]
    else []
  (("=== RUN   ".toList ++ name) ::
    (((List.range r.numLog).map fun i => goLogLine name i) ++ (failLines ++
      ["--- ".toList ++ (status ++ (": ".toList ++ (name ++ (" (".toList ++
        (fmt3 r.dur ++ "s)".toList)))))])),
   status)

/-- The module name `f"module_{file_num:04d}"`. -/
def moduleNameOf (file_num : ℕ) : Str := "module_".toList ++ padZero 4 file_num

/-- The observable result of one call of `generate_suite_file`. -/
structure SuiteFile where
  blocks : List (List Str × Str)
  summaryLine : Str
  okLine : Str
  filename : Str
  numFailures : ℕ

/-- `generate_suite_file`: one block per test (failing when the test's
`random.random()` draw is below `failure_rate`), the `PASS`/`FAIL` summary
line, and the synthetic `ok` module-timing line.  `okDur` is the final
`random.uniform(0.5, 5.0)` draw. -/
def generate_suite_file (file_num tests_per_file : ℕ) (failure_rate : ℚ)
    (output_dir : Str) (rand : ℕ → GoTestRand) (okDur : ℚ) : SuiteFile :=
  let module := moduleNameOf file_num
  let blocks := (List.range tests_per_file).map fun i =>
    generate_test_output i module (decide ((rand i).rFail < failure_rate)) (rand i)
  let numFailures := blocks.countP fun b => b.2 == "FAIL".toList
  { blocks := blocks
    summaryLine := if 0 < numFailures then "FAIL".toList else "PASS".toList
    okLine := "ok  \tgithub.com/test/".toList ++ (module ++ ('\t' :: (fmt3 okDur ++ "s".toList)))
    filename := pathJoin output_dir (module ++ ".suite".toList)
    numFailures := numFailures }

/-- All lines of a generated `.suite` file, in order. -/
def SuiteFile.lines (s : SuiteFile) : List Str :=
  (s.blocks.map Prod.fst).flatten ++ [s.summaryLine, s.okLine]

/-- Filesystem effects of one call of `generate_suite_file`: a single write of
the newline-joined lines. -/
def suiteFileEffects (file_num tests_per_file : ℕ) (failure_rate : ℚ)
    (output_dir : Str) (rand : ℕ → GoTestRand) (okDur : ℚ) : List FsEffect :=
  let s := generate_suite_file file_num tests_per_file failure_rate output_dir rand okDur
  [.write s.filename (joinLines s.lines)]

/-- Whether a console line reports a test verdict, i.e. begins with
`--- PASS:` or `--- FAIL:`. -/
def isStatusLine (l : Str) : Bool :=
  "--- PASS:".toList.isPrefixOf l || "--- FAIL:".toList.isPrefixOf l

/-- A `=== RUN` line is not a verdict line. -/
theorem isStatusLine_runLine (t : Str) :
    isStatusLine ('=' :: '=' :: '=' :: ' ' :: 'R' :: 'U' :: 'N' :: ' ' :: ' ' :: ' ' :: t) =
      false := by
  have h1 : "--- PASS:".toList.isPrefixOf ("=== RUN   ".toList ++ t) = false :=
    isPrefixOf_append_neg _ _ t 1 (by decide) (by decide) (by decide)
  have h2 : "--- FAIL:".toList.isPrefixOf ("=== RUN   ".toList ++ t) = false :=
    isPrefixOf_append_neg _ _ t 1 (by decide) (by decide) (by decide)
  show ("--- PASS:".toList.isPrefixOf ("=== RUN   ".toList ++ t) ||
    "--- FAIL:".toList.isPrefixOf ("=== RUN   ".toList ++ t)) = false
  rw [h1, h2]
  rfl

/-- A line starting with (at least) four spaces is not a verdict line. -/
theorem isStatusLine_indent (t : Str) :
    isStatusLine (' ' :: ' ' :: ' ' :: ' ' :: t) = false := by
  have h1 : "--- PASS:".toList.isPrefixOf ("    ".toList ++ t) = false :=
    isPrefixOf_append_neg _ _ t 1 (by decide) (by decide) (by decide)
  have h2 : "--- FAIL:".toList.isPrefixOf ("    ".toList ++ t) = false :=
    isPrefixOf_append_neg _ _ t 1 (by decide) (by decide) (by decide)
  show ("--- PASS:".toList.isPrefixOf ("    ".toList ++ t) ||
    "--- FAIL:".toList.isPrefixOf ("    ".toList ++ t)) = false
  rw [h1, h2]
  rfl

/-- A log line is not a verdict line. -/
theorem isStatusLine_goLogLine (name : Str) (i : ℕ) :
    isStatusLine (goLogLine name i) = false :=
  isStatusLine_indent _

/-- A `--- PASS: ` line is a verdict line. -/
theorem isStatusLine_passLine (t : Str) :
    isStatusLine ('-' :: '-' :: '-' :: ' ' :: 'P' :: 'A' :: 'S' :: 'S' :: ':' :: ' ' :: t) =
      true := by
  have h1 : "--- PASS:".toList.isPrefixOf ("--- PASS: ".toList ++ t) = true :=
    isPrefixOf_append_pos _ _ t (by decide)
  show ("--- PASS:".toList.isPrefixOf ("--- PASS: ".toList ++ t) ||
    "--- FAIL:".toList.isPrefixOf ("--- PASS: ".toList ++ t)) = true
  rw [h1]
  rfl

/-- A `--- FAIL: ` line is a verdict line. -/
theorem isStatusLine_failLine (t : Str) :
    isStatusLine ('-' :: '-' :: '-' :: ' ' :: 'F' :: 'A' :: 'I' :: 'L' :: ':' :: ' ' :: t) =
      true := by
  have h1 : "--- PASS:".toList.isPrefixOf ("--- FAIL: ".toList ++ t) = false :=
    isPrefixOf_append_neg _ _ t 5 (by decide) (by decide) (by decide)
  have h2 : "--- FAIL:".toList.isPrefixOf ("--- FAIL: ".toList ++ t) = true :=
    isPrefixOf_append_pos _ _ t (by decide)
  show ("--- PASS:".toList.isPrefixOf ("--- FAIL: ".toList ++ t) ||
    "--- FAIL:".toList.isPrefixOf ("--- FAIL: ".toList ++ t)) = true
  rw [h1, h2]
  rfl

/-- The synthetic `ok` module-timing line is not a verdict line. -/
theorem isStatusLine_okLine (t : Str) : isStatusLine ('o' :: 'k' :: t) = false := by
  have h1 : "--- PASS:".toList.isPrefixOf ("ok".toList ++ t) = false :=
    isPrefixOf_append_neg _ _ t 1 (by decide) (by decide) (by decide)
  have h2 : "--- FAIL:".toList.isPrefixOf ("ok".toList ++ t) = false :=
    isPrefixOf_append_neg _ _ t 1 (by decide) (by decide) (by decide)
  show ("--- PASS:".toList.isPrefixOf ("ok".toList ++ t) ||
    "--- FAIL:".toList.isPrefixOf ("ok".toList ++ t)) = false
  rw [h1, h2]
  rfl

/-- Each block of test output contains exactly one verdict line. -/
theorem countP_statusLine_block (test_num : ℕ) (module_name : Str) (should_fail : Bool)
    (r : GoTestRand) :
    (generate_test_output test_num module_name should_fail r).1.countP isStatusLine = 1 := by
  cases should_fail with
  | false =>
    simp [generate_test_output, List.countP_cons, List.countP_append, Function.comp,
      isStatusLine_runLine, isStatusLine_indent, isStatusLine_passLine, isStatusLine_goLogLine]
  | true =>
    simp [generate_test_output, List.countP_cons, List.countP_append, Function.comp,
      isStatusLine_runLine, isStatusLine_indent, isStatusLine_failLine, isStatusLine_goLogLine]

/-- Counting over the flattened blocks: one verdict line per block. -/
theorem countP_flatten_of_blocks (p : Str → Bool) :
    ∀ (bs : List (List Str × Str)), (∀ b ∈ bs, b.1.countP p = 1) →
      ((bs.map Prod.fst).flatten).countP p = bs.length := by
  intro bs
  induction bs with
  | nil => intro _; rfl
  | cons b bs ih =>
    intro h
    simp only [List.map_cons, List.flatten_cons, List.countP_append, List.length_cons]
    rw [h b (List.mem_cons_self b bs), ih fun x hx => h x (List.mem_cons_of_mem b hx)]
    omega


/-- Claim C3: in every generated `.suite` file the number of lines beginning
with `--- PASS:` or `--- FAIL:` equals `tests_per_file`, and the summary line
is the token `FAIL` iff at least one generated test has status `FAIL`. -/
theorem suite_file_status_summary (file_num tests_per_file : ℕ) (failure_rate : ℚ)
    (output_dir : Str) (rand : ℕ → GoTestRand) (okDur : ℚ) :
    ((generate_suite_file file_num tests_per_file failure_rate output_dir rand okDur).lines.countP
        isStatusLine = tests_per_file) ∧
    ((generate_suite_file file_num tests_per_file failure_rate output_dir rand okDur).summaryLine =
        "FAIL".toList ↔
      ∃ b ∈ (generate_suite_file file_num tests_per_file failure_rate output_dir rand
        okDur).blocks, b.2 = "FAIL".toList) := by
  set s := generate_suite_file file_num tests_per_file failure_rate output_dir rand okDur with hs
  have hblocks : s.blocks = (List.range tests_per_file).map fun i =>
      generate_test_output i (moduleNameOf file_num)
        (decide ((rand i).rFail < failure_rate)) (rand i) := rfl
  have hnum : s.numFailures = s.blocks.countP fun b => b.2 == "FAIL".toList := rfl
  have hsummary : s.summaryLine =
      if 0 < s.numFailures then "FAIL".toList else "PASS".toList := rfl
  have hok : s.okLine = "ok  \tgithub.com/test/".toList ++ (moduleNameOf file_num ++
      ('\t' :: (fmt3 okDur ++ "s".toList))) := rfl
  have hsumline : isStatusLine s.summaryLine = false := by
    rw [hsummary]
    by_cases hv : 0 < s.numFailures
    · rw [if_pos hv]; decide
    · rw [if_neg hv]; decide
  have hokline : isStatusLine s.okLine = false := by
    rw [hok]
    exact isStatusLine_okLine _
  constructor
  · have hone : ∀ b ∈ s.blocks, b.1.countP isStatusLine = 1 := by
      rw [hblocks]
      intro b hb
      rcases List.mem_map.mp hb with ⟨i, _, rfl⟩
      exact countP_statusLine_block i _ _ _
    have hlen : s.blocks.length = tests_per_file := by rw [hblocks]; simp
    show ((s.blocks.map Prod.fst).flatten ++ [s.summaryLine, s.okLine]).countP isStatusLine =
      tests_per_file
    rw [List.countP_append, countP_flatten_of_blocks _ _ hone, hlen,
      List.countP_cons_of_neg _ _ (by rw [hsumline]; exact Bool.false_ne_true),
      List.countP_cons_of_neg _ _ (by rw [hokline]; exact Bool.false_ne_true)]
    rfl
  · rw [hsummary]
    by_cases hpos : 0 < s.numFailures
    · rw [if_pos hpos]
      constructor
      · intro _
        rw [hnum] at hpos
        rcases List.countP_pos_iff.mp hpos with ⟨b, hb, hb2⟩
        exact ⟨b, hb, by simpa using hb2⟩
      · intro _
        rfl
    · rw [if_neg hpos]
      constructor
      · intro h
        exact absurd h (by decide)
      · intro hex
        rcases hex with ⟨b, hb, hb2⟩
        exact absurd (List.countP_pos_iff.mpr ⟨b, hb, by simpa using hb2⟩) (hnum ▸ hpos)

/-! ### `generate_xunit_files.py` -/

/-- The random draws consumed per test case by `generate_xunit_file` /
`generate_test_case`: the `random.random()` failure draw, the
`random.uniform(0.001, 0.5)` duration, and the `random.randint` line /
expected / actual values used in the failure block. -/
structure XunitRand where
  rFail : ℚ
  dur : ℚ
  lineNo : ℕ
  expectedVal : ℤ
  actualVal : ℤ

/-- The classname and suite name
`f"test_{module_name}.Test{module_name.title()}Suite"`. -/
def xunitClassname (module_name : Str) : Str :=
  "test_".toList ++ (module_name ++ (".Test".toList ++ (pyTitle module_name ++ "Suite".toList)))

/-- The test-case name `f"test_{module_name}_case_{test_num:04d}"`. -/
def xunitCaseName (module_name : Str) (test_num : ℕ) : Str :=
  "test_".toList ++ (module_name ++ ("_case_".toList ++ padZero 4 test_num))

/-- `generate_test_case`: the XML snippet lines for one test case
(`TESTCASE_PASS_TEMPLATE` / `TESTCASE_FAIL_TEMPLATE` instantiated), its raw
duration, and whether it failed. -/
def generate_test_case (module_name : Str) (test_num : ℕ) (should_fail : Bool)
    (r : XunitRand) : List Str × ℚ × Bool :=
  let classname := xunitClassname module_name
  let name := xunitCaseName module_name test_num
  if should_fail then
    (["  <testcase classname=\"".toList ++ (classname ++ ("\" name=\"".toList ++ (name ++
        ("\" time=\"".toList ++ (fmt3 r.dur ++ "\">".toList))))),
      "    <failure message=\"Test failed\" type=\"AssertionError\">".toList,
      "Traceback (most recent call last):".toList,
      "  File \"test_".toList ++ (module_name ++ (".py\", line ".toList ++ (natStr r.lineNo ++
        (", in ".toList ++ name)))),
      "    self.assertEqual(expected, actual)".toList,
      "AssertionError: Expected value did not match actual value.".toList,
      "Expected: ".toList ++ intStr r.expectedVal,
      "Actual: ".toList ++ intStr r.actualVal,
      "    </failure>".toList,
      "  </testcase>".toList],
     r.dur, true)
  else
    (["  <testcase classname=\"".toList ++ (classname ++ ("\" name=\"".toList ++ (name ++
        ("\" time=\"".toList ++ (fmt3 r.dur ++ "\"/>".toList)))))],
     r.dur, false)

/-- The observable result of one call of `generate_xunit_file`. -/
structure XunitFile where
  cases : List (List Str × ℚ × Bool)
  suiteName : Str
  testsAttr : ℕ
  failuresAttr : ℕ
  totalTime : ℚ
  filename : Str

/-- `generate_xunit_file`: builds `tests_per_file` test cases (failing when
the per-test `random.random()` draw is below `failure_rate`), accumulates the
failure count and the raw total duration, and instantiates `XUNIT_TEMPLATE`
with `tests = tests_per_file`, `failures = num_failures` and
`time = total_time` rendered with `%.3f`. -/
def generate_xunit_file (file_num tests_per_file : ℕ) (failure_rate : ℚ)
    (output_dir : Str) (rand : ℕ → XunitRand) : XunitFile :=
  let module := moduleNameOf file_num
  let cases := (List.range tests_per_file).map fun i =>
    generate_test_case module i (decide ((rand i).rFail < failure_rate)) (rand i)
  { cases := cases
    suiteName := xunitClassname module
    testsAttr := tests_per_file
    failuresAttr := cases.countP fun c => c.2.2
    totalTime := cases.foldl (fun acc c => acc + c.2.1) 0
    filename := pathJoin output_dir ("junit-".toList ++ (padZero 4 file_num ++ ".xml".toList)) }

/-- The `<testsuite ...>` opening line of `XUNIT_TEMPLATE`, carrying the
aggregate attributes. -/
def xunitSuiteLine (suite_name : Str) (num_tests num_failures : ℕ) (total_time : ℚ) : Str :=
  "<testsuite name=\"".toList ++ (suite_name ++ ("\" tests=\"".toList ++ (natStr num_tests ++
    ("\" failures=\"".toList ++ (natStr num_failures ++ ("\" errors=\"0\" time=\"".toList ++
      (fmt3 total_time ++ "\">".toList)))))))

/-- All lines of a generated xUnit file: the XML declaration, the testsuite
line, the test-case snippets, the closing tag, and the empty line left by the
template's trailing newline. -/
def XunitFile.lines (x : XunitFile) : List Str :=
  "<?xml version=\"1.0\" encoding=\"UTF-8\"?>".toList ::
    xunitSuiteLine x.suiteName x.testsAttr x.failuresAttr x.totalTime ::
    ((x.cases.map fun c => c.1).flatten ++ ["</testsuite>".toList, []])

/-- Filesystem effects of one call of `generate_xunit_file`: a single write
of the newline-joined document. -/
def xunitFileEffects (file_num tests_per_file : ℕ) (failure_rate : ℚ)
    (output_dir : Str) (rand : ℕ → XunitRand) : List FsEffect :=
  let x := generate_xunit_file file_num tests_per_file failure_rate output_dir rand
  [.write x.filename (joinLines x.lines)]

/-- Whether a line opens a `<testcase>` element (at the template's two-space
indentation). -/
def isTestcaseOpen (l : Str) : Bool := "  <testcase ".toList.isPrefixOf l

/-- Whether a line opens a `<failure>` element (at the template's four-space
indentation). -/
def isFailureOpen (l : Str) : Bool := "    <failure ".toList.isPrefixOf l



/-- A testcase opening line satisfies the `<testcase>` test. -/
theorem isTestcaseOpen_case (t : Str) :
    isTestcaseOpen (' ' :: ' ' :: '<' :: 't' :: 'e' :: 's' :: 't' :: 'c' :: 'a' :: 's' :: 'e' ::
      ' ' :: t) = true := by
  show ("  <testcase ".toList).isPrefixOf ("  <testcase ".toList ++ t) = true
  exact isPrefixOf_append_pos _ _ t (by decide)


/-- A line starting with `<` (testsuite line, closing tags) does not open a testcase. -/
theorem isTestcaseOpen_lt (t : Str) : isTestcaseOpen ('<' :: t) = false := by
  show ("  <testcase ".toList).isPrefixOf ("<".toList ++ t) = false
  exact isPrefixOf_append_neg _ _ t 1 (by decide) (by decide) (by decide)


/-- The traceback `File` line does not open a testcase. -/
theorem isTestcaseOpen_file (t : Str) :
    isTestcaseOpen (' ' :: ' ' :: 'F' :: t) = false := by
  show ("  <testcase ".toList).isPrefixOf ("  F".toList ++ t) = false
  exact isPrefixOf_append_neg _ _ t 3 (by decide) (by decide) (by decide)


/-- The `Expected:` line does not open a testcase. -/
theorem isTestcaseOpen_expected (t : Str) : isTestcaseOpen ('E' :: t) = false := by
  show ("  <testcase ".toList).isPrefixOf ("E".toList ++ t) = false
  exact isPrefixOf_append_neg _ _ t 1 (by decide) (by decide) (by decide)


/-- The `Actual:` line does not open a testcase. -/
theorem isTestcaseOpen_actual (t : Str) : isTestcaseOpen ('A' :: t) = false := by
  show ("  <testcase ".toList).isPrefixOf ("A".toList ++ t) = false
  exact isPrefixOf_append_neg _ _ t 1 (by decide) (by decide) (by decide)


/-- A testcase opening line does not open a failure element. -/
theorem isFailureOpen_case (t : Str) :
    isFailureOpen (' ' :: ' ' :: '<' :: t) = false := by
  show ("    <failure ".toList).isPrefixOf ("  <".toList ++ t) = false
  exact isPrefixOf_append_neg _ _ t 3 (by decide) (by decide) (by decide)


/-- The traceback `File` line does not open a failure element. -/
theorem isFailureOpen_file (t : Str) :
    isFailureOpen (' ' :: ' ' :: 'F' :: t) = false := by
  show ("    <failure ".toList).isPrefixOf ("  F".toList ++ t) = false
  exact isPrefixOf_append_neg _ _ t 3 (by decide) (by decide) (by decide)


/-- The `Expected:` line does not open a failure element. -/
theorem isFailureOpen_expected (t : Str) : isFailureOpen ('E' :: t) = false := by
  show ("    <failure ".toList).isPrefixOf ("E".toList ++ t) = false
  exact isPrefixOf_append_neg _ _ t 1 (by decide) (by decide) (by decide)


/-- The `Actual:` line does not open a failure element. -/
theorem isFailureOpen_actual (t : Str) : isFailureOpen ('A' :: t) = false := by
  show ("    <failure ".toList).isPrefixOf ("A".toList ++ t) = false
  exact isPrefixOf_append_neg _ _ t 1 (by decide) (by decide) (by decide)


/-- A line starting with `<` does not open a failure element. -/
theorem isFailureOpen_lt (t : Str) : isFailureOpen ('<' :: t) = false := by
  show ("    <failure ".toList).isPrefixOf ("<".toList ++ t) = false
  exact isPrefixOf_append_neg _ _ t 1 (by decide) (by decide) (by decide)

theorem xunit_case_counts (module_name : Str) (test_num : ℕ) (should_fail : Bool)
    (r : XunitRand) :
    ((generate_test_case module_name test_num should_fail r).1.countP isTestcaseOpen = 1) ∧
    ((generate_test_case module_name test_num should_fail r).1.countP isFailureOpen =
      if (generate_test_case module_name test_num should_fail r).2.2 then 1 else 0) := by
  cases should_fail with
  | false =>
    refine ⟨?_, ?_⟩ <;>
      simp [generate_test_case, List.countP_cons, isTestcaseOpen_case, isFailureOpen_case]
  | true =>
    refine ⟨?_, ?_⟩ <;>
      simp [generate_test_case, List.countP_cons, isTestcaseOpen_case, isTestcaseOpen_file,
        isTestcaseOpen_expected, isTestcaseOpen_actual, isFailureOpen_case, isFailureOpen_file,
        isFailureOpen_expected, isFailureOpen_actual] <;>
      decide



/-- Counting lines over flattened snippets, one indicator per snippet. -/
theorem countP_flatten_eq {α : Type} (p : Str → Bool) (q : α → Bool) (g : α → List Str) :
    ∀ (l : List α), (∀ a ∈ l, (g a).countP p = if q a then 1 else 0) →
      ((l.map g).flatten).countP p = l.countP q := by
  intro l
  induction l with
  | nil => intro _; rfl
  | cons a l ih =>
    intro h
    simp only [List.map_cons, List.flatten_cons, List.countP_append, List.countP_cons]
    rw [h a (List.mem_cons_self a l), ih fun x hx => h x (List.mem_cons_of_mem a hx)]
    cases hq : q a
    · simp [hq]
    · simp [hq]
      omega


/-- Claim C4: in every generated xUnit document the `tests` attribute equals
the number of `<testcase>` opening lines and the `failures` attribute equals
the number of `<failure>` opening lines (each `<failure>` element is the
child of exactly one `<testcase>` element in the fixed templates). -/
theorem xunit_attrs_match (file_num tests_per_file : ℕ) (failure_rate : ℚ)
    (output_dir : Str) (rand : ℕ → XunitRand) :
    ((generate_xunit_file file_num tests_per_file failure_rate output_dir rand).testsAttr =
      (generate_xunit_file file_num tests_per_file failure_rate output_dir
        rand).lines.countP isTestcaseOpen) ∧
    ((generate_xunit_file file_num tests_per_file failure_rate output_dir rand).failuresAttr =
      (generate_xunit_file file_num tests_per_file failure_rate output_dir
        rand).lines.countP isFailureOpen) := by
  set x := generate_xunit_file file_num tests_per_file failure_rate output_dir rand with hx
  have hcases : x.cases = (List.range tests_per_file).map fun i =>
      generate_test_case (moduleNameOf file_num) i
        (decide ((rand i).rFail < failure_rate)) (rand i) := rfl
  have htests : x.testsAttr = tests_per_file := rfl
  have hfail : x.failuresAttr = x.cases.countP fun c => c.2.2 := rfl
  have hlines : x.lines = "<?xml version=\"1.0\" encoding=\"UTF-8\"?>".toList ::
      xunitSuiteLine x.suiteName x.testsAttr x.failuresAttr x.totalTime ::
      ((x.cases.map fun c => c.1).flatten ++ ["</testsuite>".toList, []]) := rfl
  have hsuite_t : isTestcaseOpen
      (xunitSuiteLine x.suiteName x.testsAttr x.failuresAttr x.totalTime) = false :=
    isTestcaseOpen_lt _
  have hsuite_f : isFailureOpen
      (xunitSuiteLine x.suiteName x.testsAttr x.failuresAttr x.totalTime) = false :=
    isFailureOpen_lt _
  constructor
  · have hflat : ((x.cases.map fun c => c.1).flatten).countP isTestcaseOpen =
        x.cases.countP fun _ => true := by
      refine countP_flatten_eq _ _ _ _ fun c hc => ?_
      rw [hcases] at hc
      rcases List.mem_map.mp hc with ⟨i, _, rfl⟩
      simpa using (xunit_case_counts (moduleNameOf file_num) i _ (rand i)).1
    rw [htests, hlines]
    simp only [List.countP_cons, List.countP_append, hflat, hsuite_t]
    rw [show isTestcaseOpen "<?xml version=\"1.0\" encoding=\"UTF-8\"?>".toList = false
        from by decide,
      show isTestcaseOpen "</testsuite>".toList = false from by decide,
      show isTestcaseOpen ([] : Str) = false from by decide]
    simp only [List.countP_true, if_false, Bool.false_eq_true]
    rw [hcases]
    simp
  · have hflat : ((x.cases.map fun c => c.1).flatten).countP isFailureOpen =
        x.cases.countP fun c => c.2.2 := by
      refine countP_flatten_eq _ _ _ _ fun c hc => ?_
      rw [hcases] at hc
      rcases List.mem_map.mp hc with ⟨i, _, rfl⟩
      exact (xunit_case_counts (moduleNameOf file_num) i _ (rand i)).2
    rw [hfail, hlines]
    simp only [List.countP_cons, List.countP_append, hflat, hsuite_f]
    rw [show isFailureOpen "<?xml version=\"1.0\" encoding=\"UTF-8\"?>".toList = false
        from by decide,
      show isFailureOpen "</testsuite>".toList = false from by decide,
      show isFailureOpen ([] : Str) = false from by decide]
    simp



/-- Concrete per-case draws for the C5 counterexample: every test passes and
lasts 0.0014 seconds (inside the `uniform(0.001, 0.5)` range). -/
def xunitRand1 : XunitRand := ⟨1, 7 / 5000, 0, 0, 0⟩


/-- Counterexample to claim C5 as stated: with two passing test cases of raw
duration `7/5000 = 0.0014` seconds each (a value inside the
`random.uniform(0.001, 0.5)` range), the serialized suite `time` attribute is
`round3(0.0028) = 0.003` while the per-case `time` attributes are
`round3(0.0014) = 0.001` each, summing to `0.002`.  Stated in thousandths:
`milli` of the total differs from the sum of the per-case `milli` values. -/
theorem xunit_time_attr_counterexample :
    ((1 : ℚ) / 1000 ≤ 7 / 5000 ∧ (7 : ℚ) / 5000 ≤ 1 / 2) ∧
    milli (generate_xunit_file 0 2 0 "out".toList fun _ => xunitRand1).totalTime ≠
      ((generate_xunit_file 0 2 0 "out".toList fun _ => xunitRand1).cases.map
        fun c => milli c.2.1).sum := by
  refine ⟨⟨by norm_num, by norm_num⟩, ?_⟩
  have hd : decide ((1 : ℚ) < 0) = false := by decide
  simp only [generate_xunit_file, generate_test_case, xunitRand1, List.range_succ,
    List.range_zero, List.map_append, List.map_cons, List.map_nil, List.nil_append,
    List.foldl_cons, List.foldl_nil, List.sum_cons, List.sum_nil, hd, Bool.false_eq_true,
    if_false]
  norm_num [milli, Int.floor_eq_iff]


/-- Folding `acc + f c` over a list sums `f` over the list. -/
theorem foldl_add_rat {α : Type} (f : α → ℚ) : ∀ (l : List α) (x : ℚ),
    l.foldl (fun a c => a + f c) x = x + (l.map f).sum := by
  intro l
  induction l with
  | nil => intro x; simp
  | cons a l ih => intro x; simp [ih]; ring


/-- Claim C5 amended: the suite `time` attribute is the *raw* (unrounded) sum
of the per-case durations, rounded once at serialization; it need not equal
the sum of the independently rounded per-case `time` attributes. -/
theorem xunit_time_attr_amended (file_num tests_per_file : ℕ) (failure_rate : ℚ)
    (output_dir : Str) (rand : ℕ → XunitRand) :
    (generate_xunit_file file_num tests_per_file failure_rate output_dir rand).totalTime =
      ((generate_xunit_file file_num tests_per_file failure_rate output_dir rand).cases.map
        fun c => c.2.1).sum := by
  show ((generate_xunit_file file_num tests_per_file failure_rate output_dir
    rand).cases.foldl (fun acc c => acc + c.2.1) 0) =
    ((generate_xunit_file file_num tests_per_file failure_rate output_dir rand).cases.map
      fun c => c.2.1).sum
  rw [foldl_add_rat]
  ring

/-! ### `generate_results_file.py` -/

/-- The random draws consumed per test by `generate_test_result` /
`generate_log_content`: the `random.random()` failure draw, the
`random.uniform(0.1, 2.0)` duration, the `time.strftime` wall-clock string
(external input), the per-line `random.choice` index among
`INFO`/`DEBUG`/`TRACE`, and the `random.randint` line / expected / actual
values used in the error lines. -/
structure ResultsRand where
  rFail : ℚ
  dur : ℚ
  logTs : Str
  logTypeIdx : ℕ → ℕ
  lineNo : ℕ
  expectedVal : ℤ
  actualVal : ℤ

/-- The candidate log-level prefixes for `random.choice`. -/
def logTypeChoices : List Str := ["INFO", "DEBUG", "TRACE"].map String.toList

/-- `generate_log_content`: the log lines for one test (joining is deferred
to the caller).  The `i == num_lines - 6` comparison is carried out over ℤ,
as in Python, where `num_lines - 6` may be negative. -/
def generate_log_content (test_name : Str) (num_lines : ℕ) (failed : Bool)
    (r : ResultsRand) : List Str :=
  ("=== Starting test: ".toList ++ (test_name ++ " ===".toList)) ::
    ("Test configuration loaded at ".toList ++ r.logTs) ::
    (((List.range (num_lines - 4)).map fun (i : ℕ) =>
      if failed ∧ (i : ℤ) = (num_lines : ℤ) - 6 then
        ["ERROR: Assertion failed at line ".toList ++ natStr r.lineNo,
         "  Expected: ".toList ++ intStr r.expectedVal,
         "  Actual: ".toList ++ intStr r.actualVal]
      else
        ['[' :: (logTypeChoices.getD (r.logTypeIdx i % 3) [] ++
          ("] Processing step ".toList ++ (natStr (i + 1) ++
            ": operation completed successfully".toList)))]).flatten ++
    [("=== Test ".toList ++ (test_name ++ (' ' ::
      ((if failed then "FAILED".toList else "PASSED".toList) ++ " ===".toList))))])

/-- One record of the generated results bundle.  The Python dict keys are
`test_file`, `status`, `start`, `end` and `log_raw`; `end` is a Lean keyword,
so the field is named `endTime`. -/
structure TestResult where
  test_file : Str
  status : Str
  start : ℚ
  endTime : ℚ
  log_raw : Str

/-- `generate_test_result`: one synthetic test record; `start` is the
staggered constant `1700000000.0 + test_num * 0.5` and `end` adds the drawn
duration. -/
def generate_test_result (test_num : ℕ) (failure_rate : ℚ) (log_lines : ℕ)
    (r : ResultsRand) : TestResult :=
  let module := "module_".toList ++ padZero 3 (test_num / 100)
  let test_name := "test_".toList ++ (module ++ (".Test".toList ++ (pyTitle module ++
    ("Suite.test_case_".toList ++ padZero 5 test_num))))
  let should_fail := decide (r.rFail < failure_rate)
  let start_time : ℚ := 1700000000 + test_num * (1 / 2)
  { test_file := test_name
    status := if should_fail then "fail".toList else "pass".toList
    start := start_time
    endTime := start_time + r.dur
    log_raw := joinLines (generate_log_content test_name log_lines should_fail r) }

/-- The JSON encoding of one test record, as built by the script's dict. -/
def TestResult.toJson (t : TestResult) : Json :=
  .obj [("test_file".toList, .str t.test_file),
        ("status".toList, .str t.status),
        ("start".toList, .rat t.start),
        ("end".toList, .rat t.endTime),
        ("log_raw".toList, .str t.log_raw)]

/-- The `results` list accumulated by `generate_results_file.main`. -/
def resultsMainResults (num_tests : ℕ) (failure_rate : ℚ) (log_lines : ℕ)
    (rand : ℕ → ResultsRand) : List TestResult :=
  (List.range num_tests).map fun i => generate_test_result i failure_rate log_lines (rand i)

/-- The hard-coded output file of `generate_results_file.py`. -/
def resultsOutputFile : Str := "test_results.json".toList

/-- Filesystem effects of `generate_results_file.main`: one write of
`json.dump({"results": results}, f, indent=2)`. -/
def resultsMainEffects (num_tests : ℕ) (failure_rate : ℚ) (log_lines : ℕ)
    (rand : ℕ → ResultsRand) : List FsEffect :=
  [.write resultsOutputFile (Json.dumpsInd 2 0 (.obj [("results".toList,
    .arr ((resultsMainResults num_tests failure_rate log_lines rand).map
      TestResult.toJson))]))]

/-- Claim C6: the generated `results` list has length exactly `num_tests`,
and whenever the per-test duration draws lie in the `random.uniform(0.1, 2.0)`
range (in particular they are positive), every record satisfies
`end > start`. -/
theorem results_length_end_gt_start (num_tests : ℕ) (failure_rate : ℚ) (log_lines : ℕ)
    (rand : ℕ → ResultsRand)
    (hdur : ∀ i, 1 / 10 ≤ (rand i).dur ∧ (rand i).dur ≤ 2) :
    (resultsMainResults num_tests failure_rate log_lines rand).length = num_tests ∧
    ∀ r ∈ resultsMainResults num_tests failure_rate log_lines rand, r.start < r.endTime := by
  constructor
  · simp [resultsMainResults]
  · intro r hr
    rcases List.mem_map.mp hr with ⟨i, _, rfl⟩
    show (1700000000 + (i : ℚ) * (1 / 2)) < (1700000000 + (i : ℚ) * (1 / 2)) + (rand i).dur
    have h := (hdur i).1
    linarith

/-- A fixed per-test draw stream with duration `1`, used for the C6 witness. -/
def resultsRand1 : ℕ → ResultsRand := fun _ => ⟨1, 1, [], fun _ => 0, 0, 0, 0⟩

/-- Witness for C6 at a concrete input: two records with duration draw `1`. -/
theorem results_length_end_gt_start_witness :
    (∀ i : ℕ, 1 / 10 ≤ (resultsRand1 i).dur ∧ (resultsRand1 i).dur ≤ 2) ∧
    ((resultsMainResults 2 0 20 resultsRand1).length = 2 ∧
     ∀ r ∈ resultsMainResults 2 0 20 resultsRand1, r.start < r.endTime) :=
  ⟨fun _ => by constructor <;> norm_num [resultsRand1],
   results_length_end_gt_start 2 0 20 resultsRand1
     fun _ => by constructor <;> norm_num [resultsRand1]⟩

/-! ### `generate_test_results.py` -/

/-- Python `test["name"]` style subscription: fails (with `KeyError` or
`TypeError`, both uncaught) unless the value is a dict containing the key. -/
def pyIndex (t : Json) (k : Str) : Except Unit Json :=
  match t with
  | .obj kvs =>
    match kvs.lookup k with
    | some v => .ok v
    | none => .error ()
  | _ => .error ()

/-- The hard-coded output file of `generate_test_results.py`. -/
def testSelectionOutputFile : Str := "test_selection_results.json".toList

/-- The observable result of `generate_test_results.main` past argument
checking: the `results` list and the single file write. -/
structure TestSelectionOut where
  results : List Json
  effects : List FsEffect

/-- The body of `generate_test_results.main` after the input file has been
read and parsed to `input`: collects `test["name"]` for every entry of
`input.get("tests", [])`, then builds one `pass` record per name with
`start = end = int(time.time())` drawn per iteration (`times i`), and writes
`test_selection_results.json` with `json.dump(..., indent=4)`.  Any failure
of the subscriptions or of iterating a non-list propagates as an uncaught
exception (`.error`). -/
def generate_test_results_body (input : Json) (times : ℕ → ℤ) :
    Except Unit TestSelectionOut := do
  let tests ← match input with
    | .obj kvs =>
      match kvs.lookup "tests".toList with
      | some v => Except.ok v
      | none => Except.ok (.arr [])
    | _ => Except.error ()
  let testList ← match tests with
    | .arr xs => Except.ok xs
    | _ => Except.error ()
  let names ← testList.mapM fun t => pyIndex t "name".toList
  let results := names.enum.map fun iv =>
    Json.obj [("status".toList, .str "pass".toList),
              ("test_file".toList, iv.2),
              ("start".toList, .num (times iv.1)),
              ("end".toList, .num (times iv.1))]
  return { results := results
           effects := [.write testSelectionOutputFile (Json.dumpsInd 4 0
             (.obj [("results".toList, .arr results)]))] }

/-- The input JSON of the C7 end-to-end scenario:
`{"tests": [{"name": "A"}, {"name": "B"}]}`. -/
def c7Input : Json :=
  .obj [("tests".toList, .arr [.obj [("name".toList, .str "A".toList)],
                               .obj [("name".toList, .str "B".toList)]])]

/-- Claim C7: on the input `{"tests": [{"name": "A"}, {"name": "B"}]}` the
script succeeds, writes `test_selection_results.json`, and produces exactly
two records, each with status `pass` and equal `start` and `end` fields. -/
theorem test_selection_two_pass_records (times : ℕ → ℤ) :
    ∃ out : TestSelectionOut, generate_test_results_body c7Input times = .ok out ∧
      out.results.length = 2 ∧
      writePaths out.effects = [testSelectionOutputFile] ∧
      ∀ r ∈ out.results, r.getKey "status".toList = some (.str "pass".toList) ∧
        ∃ t : ℤ, r.getKey "start".toList = some (.num t) ∧
          r.getKey "end".toList = some (.num t) := by
  refine ⟨⟨[.obj [("status".toList, .str "pass".toList),
              ("test_file".toList, .str "A".toList),
              ("start".toList, .num (times 0)),
              ("end".toList, .num (times 0))],
            .obj [("status".toList, .str "pass".toList),
              ("test_file".toList, .str "B".toList),
              ("start".toList, .num (times 1)),
              ("end".toList, .num (times 1))]], _⟩, rfl, rfl, rfl, ?_⟩
  intro r hr
  rcases List.mem_cons.mp hr with rfl | hr2
  · exact ⟨rfl, times 0, rfl, rfl⟩
  rcases List.mem_cons.mp hr2 with rfl | hr3
  · exact ⟨rfl, times 1, rfl, rfl⟩
  · exact absurd hr3 (List.not_mem_nil r)

/-! ### Command-line behaviour of the five scripts -/

/-- The exit behaviour of one script invocation: normal exit 0, the explicit
usage message with `sys.exit(1)`, or an uncaught exception (non-zero exit
with a stack trace). -/
inductive ExitOutcome where
  | exit0
  | usage1
  | exception
deriving DecidableEq

/-- The numeric value of a digit string (no validation). -/
def digitsNum (ds : Str) : ℕ :=
  ds.foldl (fun a c => a * 10 + (c.toNat - '0'.toNat)) 0

/-- A non-empty all-digit string's value, `none` otherwise. -/
def digitsVal (ds : Str) : Option ℕ :=
  if ds ≠ [] ∧ ds.all Char.isDigit then some (digitsNum ds) else none

/-- Strip surrounding whitespace, as Python's numeric constructors do. -/
def pyStrip (s : Str) : Str :=
  ((s.dropWhile Char.isWhitespace).reverse.dropWhile Char.isWhitespace).reverse

/-- Python `int(s)`: optional surrounding whitespace, optional sign, a
non-empty digit string; anything else raises `ValueError`. -/
def pyInt (s : Str) : Option ℤ :=
  match pyStrip s with
  | '-' :: ds => (digitsVal ds).map fun n => -(n : ℤ)
  | '+' :: ds => (digitsVal ds).map fun n => (n : ℤ)
  | ds => (digitsVal ds).map fun n => (n : ℤ)

/-- Python `float(s)` restricted to plain decimal forms (`digits`,
`digits.digits`, `.digits`, `digits.`); the further spellings Python accepts
(exponents, `inf`, `nan`) are immaterial to the claims, which only
distinguish success from `ValueError`. -/
def pyFloatCore (ds : Str) : Option ℚ :=
  match ds.splitOn '.' with
  | [a] => (digitsVal a).map fun n => (n : ℚ)
  | [a, b] =>
    if (a ≠ [] ∨ b ≠ []) ∧ a.all Char.isDigit ∧ b.all Char.isDigit then
      some ((digitsNum a : ℚ) + (digitsNum b : ℚ) / ((10 : ℚ) ^ b.length))
    else none
  | _ => none

/-- Python `float(s)` with sign and whitespace handling. -/
def pyFloat (s : Str) : Option ℚ :=
  match pyStrip s with
  | '-' :: ds => (pyFloatCore ds).map fun q => -q
  | '+' :: ds => pyFloatCore ds
  | ds => pyFloatCore ds

/-- `generate_gotest_files.main` argument handling:
`int(argv[1])` (default 10), `int(argv[2])` (default 100),
`float(argv[3])` (default 0.1); a parse failure propagates as an uncaught
exception, otherwise the generation loop runs to completion and the process
exits 0. -/
def gotestScriptOutcome (argv : List Str) : ExitOutcome :=
  let nf := if argv.length > 1 then pyInt (argv.getD 1 []) else some 10
  let tp := if argv.length > 2 then pyInt (argv.getD 2 []) else some 100
  let fr := if argv.length > 3 then pyFloat (argv.getD 3 []) else some (1 / 10)
  if nf.isSome && tp.isSome && fr.isSome then .exit0 else .exception

/-- `generate_xunit_files.main` argument handling (defaults 100, 50, 0.1). -/
def xunitScriptOutcome (argv : List Str) : ExitOutcome :=
  let nf := if argv.length > 1 then pyInt (argv.getD 1 []) else some 100
  let tp := if argv.length > 2 then pyInt (argv.getD 2 []) else some 50
  let fr := if argv.length > 3 then pyFloat (argv.getD 3 []) else some (1 / 10)
  if nf.isSome && tp.isSome && fr.isSome then .exit0 else .exception

/-- `generate_results_file.main` argument handling (defaults 500, 0.1, 20). -/
def resultsScriptOutcome (argv : List Str) : ExitOutcome :=
  let nt := if argv.length > 1 then pyInt (argv.getD 1 []) else some 500
  let fr := if argv.length > 2 then pyFloat (argv.getD 2 []) else some (1 / 10)
  let ll := if argv.length > 3 then pyInt (argv.getD 3 []) else some 20
  if nt.isSome && fr.isSome && ll.isSome then .exit0 else .exception

/-- `generate_trace_files.main` argument handling (defaults 10, 100). -/
def traceScriptOutcome (argv : List Str) : ExitOutcome :=
  let nf := if argv.length > 1 then pyInt (argv.getD 1 []) else some 10
  let sp := if argv.length > 2 then pyInt (argv.getD 2 []) else some 100
  if nf.isSome && sp.isSome then .exit0 else .exception

/-- `generate_test_results.main`: with fewer than two `argv` entries it
prints the usage message and exits 1; otherwise the input file is read and
parsed (`readFile`, an uncaught exception on failure) and the body runs. -/
def testResultsScriptOutcome (argv : List Str) (readFile : Except Unit Json)
    (times : ℕ → ℤ) : ExitOutcome :=
  if argv.length < 2 then .usage1
  else
    match readFile with
    | .error _ => .exception
    | .ok j =>
      match generate_test_results_body j times with
      | .ok _ => .exit0
      | .error _ => .exception

/-- Claim C8: `generate_test_results.py` is the only script with a required
argument — it exits 1 with a usage message exactly when `len(sys.argv) < 2`;
the four generator scripts never take that path, each exits 0 or dies with an
uncaught exception, each exits 0 when invoked without arguments (all
arguments default), and an unparsable argument raises an uncaught exception
terminating with non-zero status. -/
theorem script_exit_behaviour :
    (∀ (argv : List Str) (readFile : Except Unit Json) (times : ℕ → ℤ),
      testResultsScriptOutcome argv readFile times = .usage1 ↔ argv.length < 2) ∧
    (∀ argv : List Str, gotestScriptOutcome argv ≠ .usage1 ∧
      (gotestScriptOutcome argv = .exit0 ∨ gotestScriptOutcome argv = .exception)) ∧
    (∀ argv : List Str, xunitScriptOutcome argv ≠ .usage1 ∧
      (xunitScriptOutcome argv = .exit0 ∨ xunitScriptOutcome argv = .exception)) ∧
    (∀ argv : List Str, resultsScriptOutcome argv ≠ .usage1 ∧
      (resultsScriptOutcome argv = .exit0 ∨ resultsScriptOutcome argv = .exception)) ∧
    (∀ argv : List Str, traceScriptOutcome argv ≠ .usage1 ∧
      (traceScriptOutcome argv = .exit0 ∨ traceScriptOutcome argv = .exception)) ∧
    (∀ a0 : Str, gotestScriptOutcome [a0] = .exit0 ∧ xunitScriptOutcome [a0] = .exit0 ∧
      resultsScriptOutcome [a0] = .exit0 ∧ traceScriptOutcome [a0] = .exit0) ∧
    (∀ a0 s : Str, pyInt s = none →
      gotestScriptOutcome [a0, s] = .exception ∧ traceScriptOutcome [a0, s] = .exception) := by
  have hout : ∀ b : Bool,
      (if b then ExitOutcome.exit0 else ExitOutcome.exception) ≠ ExitOutcome.usage1 ∧
      ((if b then ExitOutcome.exit0 else ExitOutcome.exception) = ExitOutcome.exit0 ∨
       (if b then ExitOutcome.exit0 else ExitOutcome.exception) = ExitOutcome.exception) := by
    intro b
    cases b <;> simp
  refine ⟨?_, fun argv => hout _, fun argv => hout _, fun argv => hout _,
    fun argv => hout _, ?_, ?_⟩
  · intro argv readFile times
    unfold testResultsScriptOutcome
    by_cases hlen : argv.length < 2
    · simp [hlen]
    · rw [if_neg hlen]
      constructor
      · intro h
        exfalso
        cases readFile with
        | error e =>
          have h2 : ExitOutcome.exception = ExitOutcome.usage1 := h
          exact absurd h2 (by decide)
        | ok j =>
          have h2 : (match generate_test_results_body j times with
            | .ok _ => ExitOutcome.exit0
            | .error _ => ExitOutcome.exception) = ExitOutcome.usage1 := h
          cases hb : generate_test_results_body j times with
          | ok o => rw [hb] at h2; simp at h2
          | error e => rw [hb] at h2; simp at h2
      · intro h
        exact absurd h hlen
  · intro a0
    refine ⟨?_, ?_, ?_, ?_⟩ <;> rfl
  · intro a0 s h
    constructor
    · simp [gotestScriptOutcome, h]
    · simp [traceScriptOutcome, h]

/-! ### Filesystem effects of the assemblers and drivers -/

/-- A fixed per-test draw, used for concrete effect-trace instances. -/
def goRand0 : GoTestRand := ⟨1, 0, 0, 0, 0⟩

/-- Counterexample to claim C2 as stated: at a concrete input, the effect
trace of `generate_suite_file` contains no directory creation at all (the
function only opens its output file for writing), so the assembler cannot
create an absent target directory. -/
theorem assembler_no_mkdir_counterexample :
    (suiteFileEffects 0 1 0 "out".toList (fun _ => goRand0) 1).countP FsEffect.isMkdir = 0 :=
  rfl

/-- Claim C2 amended: each assembler (`generate_suite_file`,
`generate_xunit_file`, `generate_trace_file`) writes exactly one file to its
target directory and performs no other filesystem effect — in particular none
of them creates the directory; only the driver `generate_trace_files.main`
creates its output directory (`os.makedirs(..., exist_ok=True)`), before the
per-file writes. -/
theorem assembler_effects_amended (file_num tests_per_file : ℕ) (failure_rate : ℚ)
    (output_dir : Str) (grand : ℕ → GoTestRand) (okDur : ℚ) (xrand : ℕ → XunitRand)
    (spans_per_file : ℕ) (tr : ℕ → TraceRand) (num_files : ℕ) (tr2 : ℕ → ℕ → TraceRand) :
    (writePaths (suiteFileEffects file_num tests_per_file failure_rate output_dir grand okDur) =
      [(generate_suite_file file_num tests_per_file failure_rate output_dir grand
        okDur).filename] ∧
     (suiteFileEffects file_num tests_per_file failure_rate output_dir grand okDur).countP
       FsEffect.isMkdir = 0) ∧
    (writePaths (xunitFileEffects file_num tests_per_file failure_rate output_dir xrand) =
      [(generate_xunit_file file_num tests_per_file failure_rate output_dir xrand).filename] ∧
     (xunitFileEffects file_num tests_per_file failure_rate output_dir xrand).countP
       FsEffect.isMkdir = 0) ∧
    (writePaths (traceFileEffects file_num spans_per_file output_dir tr) =
      [(generate_trace_file file_num spans_per_file output_dir tr).filename] ∧
     (traceFileEffects file_num spans_per_file output_dir tr).countP FsEffect.isMkdir = 0) ∧
    (traceMainEffects num_files spans_per_file tr2).head? =
      some (.mkdir traceOutputDir) := by
  exact ⟨⟨rfl, rfl⟩, ⟨rfl, rfl⟩, ⟨rfl, rfl⟩, rfl⟩

/-! ### Full-run effects and filename determinism -/

/-- Filesystem effects of `generate_gotest_files.main`: the per-file writes
of the loop, into the hard-coded output directory `"."`. -/
def gotestMainEffects (num_files tests_per_file : ℕ) (failure_rate : ℚ)
    (rand : ℕ → ℕ → GoTestRand) (okDur : ℕ → ℚ) : List FsEffect :=
  ((List.range num_files).map fun k =>
    suiteFileEffects k tests_per_file failure_rate ".".toList (rand k) (okDur k)).flatten

/-- Filesystem effects of `generate_xunit_files.main`: the per-file writes of
the loop, into the hard-coded output directory `"."`. -/
def xunitMainEffects (num_files tests_per_file : ℕ) (failure_rate : ℚ)
    (rand : ℕ → ℕ → XunitRand) : List FsEffect :=
  ((List.range num_files).map fun k =>
    xunitFileEffects k tests_per_file failure_rate ".".toList (rand k)).flatten

/-- The filename formula `os.path.join(output_dir, f"{module_name}.suite")`. -/
def suiteFilename (output_dir : Str) (file_num : ℕ) : Str :=
  pathJoin output_dir (moduleNameOf file_num ++ ".suite".toList)

/-- The filename formula `os.path.join(output_dir, f"junit-{file_num:04d}.xml")`. -/
def xunitFilename (output_dir : Str) (file_num : ℕ) : Str :=
  pathJoin output_dir ("junit-".toList ++ (padZero 4 file_num ++ ".xml".toList))

/-- The filename formula `os.path.join(output_dir, f"traces_{file_num:04d}.jsonl")`. -/
def traceFilename (output_dir : Str) (file_num : ℕ) : Str :=
  pathJoin output_dir ("traces_".toList ++ padZero 4 file_num ++ ".jsonl".toList)

/-- `writePaths` distributes over concatenation of effect traces. -/
theorem writePaths_append (es fs : List FsEffect) :
    writePaths (es ++ fs) = writePaths es ++ writePaths fs :=
  List.filterMap_append es fs _

/-- The paths written by a loop whose iterations each write one file. -/
theorem writePaths_flatten_singleton {α : Type} (g : α → List FsEffect) (nm : α → Str)
    (h : ∀ a, writePaths (g a) = [nm a]) :
    ∀ l : List α, writePaths ((l.map g).flatten) = l.map nm := by
  intro l
  induction l with
  | nil => rfl
  | cons a l ih =>
    simp only [List.map_cons, List.flatten_cons]
    rw [writePaths_append, h a, ih]
    rfl

/-- A present file stays present under any further effects (writes only
replace content). -/
theorem applyEffects_preserves_isSome : ∀ (es : List FsEffect) (f : FS) (p : Str),
    (f p).isSome = true → (applyEffects es f p).isSome = true := by
  intro es
  induction es with
  | nil => intro f p h; exact h
  | cons e es ih =>
    intro f p h
    show (applyEffects es (applyEffect f e) p).isSome = true
    apply ih
    cases e with
    | mkdir d => exact h
    | write q c =>
      show (if p = q then some c else f p).isSome = true
      by_cases hpq : p = q
      · simp [hpq]
      · simpa [hpq] using h

/-- After replaying a trace over any starting filesystem, every path the
trace writes holds a file: re-running a generator overwrites existing files
of the same name without error. -/
theorem applyEffects_writePaths_isSome : ∀ (es : List FsEffect) (f : FS) (p : Str),
    p ∈ writePaths es → (applyEffects es f p).isSome = true := by
  intro es
  induction es with
  | nil =>
    intro f p hp
    simp [writePaths] at hp
  | cons e es ih =>
    intro f p hp
    cases e with
    | mkdir d =>
      have hp2 : p ∈ writePaths es := by simpa [writePaths] using hp
      exact ih _ p hp2
    | write q c =>
      have hp2 : p = q ∨ p ∈ writePaths es := by simpa [writePaths] using hp
      show (applyEffects es (applyEffect f (.write q c)) p).isSome = true
      rcases hp2 with rfl | hmem
      · apply applyEffects_preserves_isSome
        show (if p = p then some c else f p).isSome = true
        simp
      · exact ih _ p hmem

/-- Claim C9: for each generator the written paths are a fixed function of
the file index (and fixed format strings), identical across runs with the
same file-count parameters and independent of every random draw; replaying a
second run over the filesystem left by a first run overwrites the same
paths, and afterwards every target path holds a file (no error). -/
theorem filenames_deterministic_and_overwrite
    (num_files tests_per_file spans_per_file num_tests log_lines : ℕ) (failure_rate : ℚ)
    (grand grand2 : ℕ → ℕ → GoTestRand) (okDur okDur2 : ℕ → ℚ)
    (xrand xrand2 : ℕ → ℕ → XunitRand) (tr tr2 : ℕ → ℕ → TraceRand)
    (rrand rrand2 : ℕ → ResultsRand) (f0 : FS) (p : Str) :
    (writePaths (gotestMainEffects num_files tests_per_file failure_rate grand okDur) =
       (List.range num_files).map (suiteFilename ".".toList) ∧
     writePaths (gotestMainEffects num_files tests_per_file failure_rate grand okDur) =
       writePaths (gotestMainEffects num_files tests_per_file failure_rate grand2 okDur2) ∧
     (p ∈ writePaths (gotestMainEffects num_files tests_per_file failure_rate grand okDur) →
       (applyEffects (gotestMainEffects num_files tests_per_file failure_rate grand2 okDur2)
         f0 p).isSome = true)) ∧
    (writePaths (xunitMainEffects num_files tests_per_file failure_rate xrand) =
       (List.range num_files).map (xunitFilename ".".toList) ∧
     writePaths (xunitMainEffects num_files tests_per_file failure_rate xrand) =
       writePaths (xunitMainEffects num_files tests_per_file failure_rate xrand2) ∧
     (p ∈ writePaths (xunitMainEffects num_files tests_per_file failure_rate xrand) →
       (applyEffects (xunitMainEffects num_files tests_per_file failure_rate xrand2)
         f0 p).isSome = true)) ∧
    (writePaths (traceMainEffects num_files spans_per_file tr) =
       (List.range num_files).map (traceFilename traceOutputDir) ∧
     writePaths (traceMainEffects num_files spans_per_file tr) =
       writePaths (traceMainEffects num_files spans_per_file tr2) ∧
     (p ∈ writePaths (traceMainEffects num_files spans_per_file tr) →
       (applyEffects (traceMainEffects num_files spans_per_file tr2) f0 p).isSome = true)) ∧
    (writePaths (resultsMainEffects num_tests failure_rate log_lines rrand) =
       [resultsOutputFile] ∧
     writePaths (resultsMainEffects num_tests failure_rate log_lines rrand) =
       writePaths (resultsMainEffects num_tests failure_rate log_lines rrand2) ∧
     (p ∈ writePaths (resultsMainEffects num_tests failure_rate log_lines rrand) →
       (applyEffects (resultsMainEffects num_tests failure_rate log_lines rrand2)
         f0 p).isSome = true)) := by
  have hgo : ∀ (r : ℕ → ℕ → GoTestRand) (d : ℕ → ℚ),
      writePaths (gotestMainEffects num_files tests_per_file failure_rate r d) =
        (List.range num_files).map (suiteFilename ".".toList) := fun r d =>
    writePaths_flatten_singleton
      (fun k => suiteFileEffects k tests_per_file failure_rate ".".toList (r k) (d k))
      (suiteFilename ".".toList) (fun _ => rfl) (List.range num_files)
  have hxu : ∀ r : ℕ → ℕ → XunitRand,
      writePaths (xunitMainEffects num_files tests_per_file failure_rate r) =
        (List.range num_files).map (xunitFilename ".".toList) := fun r =>
    writePaths_flatten_singleton
      (fun k => xunitFileEffects k tests_per_file failure_rate ".".toList (r k))
      (xunitFilename ".".toList) (fun _ => rfl) (List.range num_files)
  have htr : ∀ t : ℕ → ℕ → TraceRand,
      writePaths (traceMainEffects num_files spans_per_file t) =
        (List.range num_files).map (traceFilename traceOutputDir) := fun t =>
    writePaths_flatten_singleton
      (fun k => traceFileEffects k spans_per_file traceOutputDir (t k))
      (traceFilename traceOutputDir) (fun _ => rfl) (List.range num_files)
  have hre : ∀ r : ℕ → ResultsRand,
      writePaths (resultsMainEffects num_tests failure_rate log_lines r) =
        [resultsOutputFile] := fun r => rfl
  refine ⟨⟨hgo grand okDur, (hgo grand okDur).trans (hgo grand2 okDur2).symm, fun hp => ?_⟩,
    ⟨hxu xrand, (hxu xrand).trans (hxu xrand2).symm, fun hp => ?_⟩,
    ⟨htr tr, (htr tr).trans (htr tr2).symm, fun hp => ?_⟩,
    ⟨hre rrand, (hre rrand).trans (hre rrand2).symm, fun hp => ?_⟩⟩
  · exact applyEffects_writePaths_isSome _ f0 p
      (by rw [hgo grand2 okDur2, ← hgo grand okDur]; exact hp)
  · exact applyEffects_writePaths_isSome _ f0 p
      (by rw [hxu xrand2, ← hxu xrand]; exact hp)
  · exact applyEffects_writePaths_isSome _ f0 p
      (by rw [htr tr2, ← htr tr]; exact hp)
  · exact applyEffects_writePaths_isSome _ f0 p
      (by rw [hre rrand2, ← hre rrand]; exact hp)

end CQ
